import Mathlib

/-!
Shallow embedding of the metrics collector (`main.go` of
reggeenr/ce-metrics-collector) and proofs about its per-cycle logic.

Resource quantities are modelled as exact rationals (`ℚ`): the Go code reads
them through `Quantity.ToDec().AsApproximateFloat64()` and then performs
float64 arithmetic; every concrete value appearing in the theorems below is
far from a rounding discontinuity, so exact rational arithmetic produces the
same truncated integers as the float64 computation does.

Go's `int64(f)` conversion of a float truncates toward zero; when `f` is
`±Inf` or `NaN` (as produced by a float division by zero) the conversion is
implementation-defined and yields the "integer indefinite" value
`-2^63` on amd64, which is how it is modelled here (`int64IndefGo`).
-/

namespace CeMetrics

/-- Truncation toward zero of a rational, the semantics of Go's `int64(f)`
conversion for finite `f`. -/
def goTrunc (q : ℚ) : ℤ := if 0 ≤ q then ⌊q⌋ else - ⌊- q⌋

/-- Largest int64 value, `2^63 - 1`. -/
def int64Max : ℤ := 2 ^ 63 - 1

/-- Smallest int64 value, `-2^63`. -/
def int64Min : ℤ := - (2 ^ 63)

/-- The value produced on amd64 when a non-finite float64 (e.g. the result of
a division by zero) is converted to `int64`: the x86 "integer indefinite"
bit pattern, numerically `-2^63`. -/
def int64IndefGo : ℤ := int64Min

/-- A single container entry of a pod-metrics item: its measured CPU usage in
cores and memory usage in bytes (`podMetric.Containers[i].Usage`). -/
structure MetricContainer where
  cpuUsage : ℚ
  memUsage : ℚ
deriving DecidableEq, Repr

/-- A pod-metrics item (`v1beta1.PodMetrics`): name, metadata labels and the
per-container usage list. -/
structure PodMetric where
  name : String
  labels : List (String × String)
  containers : List MetricContainer
deriving DecidableEq, Repr

/-- A container of a pod spec with its declared resource limits
(`pod.Spec.Containers[i]`). `none` means the limit is not declared; Go's
`ResourceList.Cpu()` then yields a zero quantity (never a nil pointer). -/
structure Container where
  name : String
  cpuLimit : Option ℚ
  memLimit : Option ℚ
deriving DecidableEq, Repr

/-- A pod (`v1.Pod`): its name and spec containers. -/
structure Pod where
  name : String
  containers : List Container
deriving DecidableEq, Repr

/-- Model of `ResourceStats` of main.go: current, configured and usage values of one
resource dimension. -/
structure ResourceStats where
  current : ℤ
  configured : ℤ
  usage : ℤ
deriving DecidableEq, Repr

/-- Model of `InstanceResourceStats` of main.go: the emitted record. -/
structure InstanceResourceStats where
  metric : String
  name : String
  parent : String
  componentType : String
  componentName : String
  cpu : ResourceStats
  memory : ResourceStats
  message : String
deriving DecidableEq, Repr

/-- Label key `buildrun.shipwright.io/name`. -/
def buildRunLabelKey : String := "buildrun.shipwright.io/name"

/-- Label key `serving.knative.dev/service`. -/
def servingServiceLabelKey : String := "serving.knative.dev/service"

/-- Label key `serving.knative.dev/revision`. -/
def servingRevisionLabelKey : String := "serving.knative.dev/revision"

/-- Label key `codeengine.cloud.ibm.com/job-run`. -/
def jobRunLabelKey : String := "codeengine.cloud.ibm.com/job-run"

/-- Label key `codeengine.cloud.ibm.com/job-definition-name`. -/
def jobDefinitionLabelKey : String := "codeengine.cloud.ibm.com/job-definition-name"

/-- Label key `build.shipwright.io/name`. -/
def buildNameLabelKey : String := "build.shipwright.io/name"

/-- The component-type classification of main.go lines 88-97: starting from
"unknown", each of the three label-presence checks runs unconditionally and
overwrites the previous result when its label is present (there is no `else`
chaining between the three `if` statements). -/
def classifyType (labels : List (String × String)) : String :=
  let t0 := "unknown"
  let t1 := if (labels.lookup buildRunLabelKey).isSome then "build" else t0
  let t2 := if (labels.lookup servingServiceLabelKey).isSome then "app" else t1
  if (labels.lookup jobRunLabelKey).isSome then "job" else t2

/-- The `componentName` computed by the `switch componentType` of
main.go lines 101-122. A missing map key reads as the empty string in Go. -/
def componentNameOf (componentType : String) (labels : List (String × String)) : String :=
  match componentType with
  | "job" => (labels.lookup jobDefinitionLabelKey).getD "standalone"
  | "app" => (labels.lookup servingServiceLabelKey).getD ""
  | "build" => (labels.lookup buildNameLabelKey).getD "standalone"
  | _ => "unknown"

/-- The `parent` computed by the `switch componentType` of
main.go lines 101-122; it stays at its zero value "" in the default case. -/
def parentOf (componentType : String) (labels : List (String × String)) : String :=
  match componentType with
  | "job" => (labels.lookup jobRunLabelKey).getD ""
  | "app" => (labels.lookup servingRevisionLabelKey).getD ""
  | "build" => (labels.lookup buildRunLabelKey).getD ""
  | _ => ""

/-- Modelled from the spec (section 4.3): a classifier that checks build,
then app, then job and short-circuits on the first match. Stated only to be
compared against `classifyType`; the comparison fails (see the theorems on
claim C1). -/
def classifySpecShortCircuit (labels : List (String × String)) : String :=
  if (labels.lookup buildRunLabelKey).isSome then "build"
  else if (labels.lookup servingServiceLabelKey).isSome then "app"
  else if (labels.lookup jobRunLabelKey).isSome then "job"
  else "unknown"

/-- The precedence the code actually implements: because each of the three
checks overwrites the previous result, the LAST matching label in the order
build, app, job wins, i.e. job over app over build. -/
def classifyLastMatchWins (labels : List (String × String)) : String :=
  if (labels.lookup jobRunLabelKey).isSome then "job"
  else if (labels.lookup servingServiceLabelKey).isSome then "app"
  else if (labels.lookup buildRunLabelKey).isSome then "build"
  else "unknown"

/-- C1 counterexample: a label set carrying both the build-run and the
job-run ownership labels classifies as "job", not "build", and one carrying
both the serving and the job-run labels classifies as "job", not "app":
the classifier does not short-circuit on the first match. -/
theorem classifyType_not_short_circuit :
    classifyType [(buildRunLabelKey, "b1"), (jobRunLabelKey, "j1")] = "job" ∧
    classifyType [(buildRunLabelKey, "b1"), (jobRunLabelKey, "j1")] ≠ "build" ∧
    classifyType [(servingServiceLabelKey, "a1"), (jobRunLabelKey, "j1")] = "job" ∧
    classifyType [(servingServiceLabelKey, "a1"), (jobRunLabelKey, "j1")] ≠ "app" ∧
    classifySpecShortCircuit [(buildRunLabelKey, "b1"), (jobRunLabelKey, "j1")] = "build" := by
  decide

/-- C1 (amended): the classifier evaluates the three label checks in the
fixed order build, then app, then job, but without short-circuiting: a later
matching check overwrites an earlier one, so the effective precedence is
job over app over build. -/
theorem classifyType_eq_lastMatchWins (labels : List (String × String)) :
    classifyType labels = classifyLastMatchWins labels := by
  unfold classifyType classifyLastMatchWins
  rcases hj : (labels.lookup jobRunLabelKey).isSome <;>
    rcases ha : (labels.lookup servingServiceLabelKey).isSome <;>
      rcases hb : (labels.lookup buildRunLabelKey).isSome <;> simp [hj, ha, hb]

/-- Model of `getPod` of main.go lines 162-169: linear scan of the pod list, returning
the first pod with the given name, or nil (`none`). -/
def getPod (name : String) : List Pod → Option Pod
  | [] => none
  | p :: rest => if p.name = name then some p else getPod name rest

/-- The pair returned by Go's `Resources.Limits.Cpu()` / `.Memory()` for one
container: a missing map entry reads as a zero quantity, never as nil. -/
def containerLimits (c : Container) : ℚ × ℚ :=
  (c.cpuLimit.getD 0, c.memLimit.getD 0)

/-- The `for _, container := range pod.Spec.Containers` scan of
main.go lines 242-248: first container named "user-container", if any. -/
def findUserContainer : List Container → Option Container
  | [] => none
  | c :: rest => if c.name = "user-container" then some c else findUserContainer rest

/-- Model of `getCpuAndMemoryLimit` of main.go lines 233-259. The result is `none`
exactly when the Go function returns the `nil, nil` pair of line 258. -/
def getCpuAndMemoryLimit (componentType : String) (pod : Pod) : Option (ℚ × ℚ) :=
  if componentType = "job" then
    match pod.containers with
    | [] => none
    | c :: _ => some (containerLimits c)
  else if componentType = "app" then
    match pod.containers with
    | [] => none
    | _ :: _ => (findUserContainer pod.containers).map containerLimits
  else if componentType = "build" then
    match pod.containers with
    | [] => none
    | c :: _ => some (containerLimits c)
  else none

/-- The ways the per-sample body of `collectInstanceMetrics` can panic:
the unguarded `podMetric.Containers[0]` access of lines 123-124, and the
`cpu.ToDec()` call of line 145 when `getCpuAndMemoryLimit` returned nil. -/
inductive Fault
  | indexOutOfRange
  | nilDeref
deriving DecidableEq, Repr

/-- The `int64((current / limit) * 100)` computation of main.go lines 147
and 151. With `limit = 0` the float64 division yields `±Inf` or `NaN` and
the conversion produces the implementation-defined value `int64IndefGo`
(amd64 behavior); Go does not panic on float division by zero. -/
def usagePct (current limit : ℚ) : ℤ :=
  if limit = 0 then int64IndefGo else goTrunc (current / limit * 100)

/-- A single quote character, used by the message of main.go line 154. -/
def singleQuote : String := String.singleton (Char.ofNat 39)

/-- The `stats.Message` assembly of main.go line 154. -/
def mkMessage (s : InstanceResourceStats) : String :=
  "Captured metrics of " ++ s.componentType ++ " instance " ++ singleQuote ++
    s.name ++ singleQuote ++ ": " ++ toString s.cpu.current ++
    "m vCPU, " ++ toString s.memory.current ++ " MB memory"

/-- The body of the `for _, podMetric := range podMetrics` loop of
`collectInstanceMetrics`, main.go lines 86-157, for one pod-metrics item:
classify, read the first container's usage, look the pod up by name,
resolve and apply limits, build the message. `Except.error` marks the two
panic paths (`Fault`). -/
def processSample (pods : List Pod) (m : PodMetric) : Except Fault InstanceResourceStats :=
  let componentType := classifyType m.labels
  let componentName := componentNameOf componentType m.labels
  let parent := parentOf componentType m.labels
  match m.containers with
  | [] => .error Fault.indexOutOfRange
  | c0 :: _ =>
    let cpuCurrent : ℚ := c0.cpuUsage * 1000
    let memoryCurrent : ℚ := c0.memUsage / 1000 / 1000
    let stats0 : InstanceResourceStats :=
      { metric := "instance-resources"
        name := m.name
        parent := parent
        componentType := componentType
        componentName := componentName
        cpu := { current := goTrunc cpuCurrent, configured := 0, usage := 0 }
        memory := { current := goTrunc memoryCurrent, configured := 0, usage := 0 }
        message := "" }
    match getPod m.name pods with
    | none => .ok { stats0 with message := mkMessage stats0 }
    | some pod =>
      match getCpuAndMemoryLimit componentType pod with
      | none => .error Fault.nilDeref
      | some (cpu, memory) =>
        let cpuLimit : ℚ := cpu * 1000
        let memoryLimit : ℚ := memory / 1000 / 1000
        let stats1 : InstanceResourceStats :=
          { stats0 with
            cpu := { current := goTrunc cpuCurrent
                     configured := goTrunc cpuLimit
                     usage := usagePct cpuCurrent cpuLimit }
            memory := { current := goTrunc memoryCurrent
                        configured := goTrunc memoryLimit
                        usage := usagePct memoryCurrent memoryLimit } }
        .ok { stats1 with message := mkMessage stats1 }

/-- The whole per-cycle loop over `podMetrics`: records emitted so far (the
Go code prints each record before processing the next sample), paired with
the fault that aborted the loop, if any. -/
def collectRecords (pods : List Pod) : List PodMetric → List InstanceResourceStats × Option Fault
  | [] => ([], none)
  | m :: rest =>
    match processSample pods m with
    | .error f => ([], some f)
    | .ok r =>
      let (rs, fault) := collectRecords pods rest
      (r :: rs, fault)

/-- One page of a paginated list response: the items and the continuation
token (`podList.Continue`); an empty token means the listing is done. -/
structure Page (α : Type) where
  items : List α
  continueToken : String
deriving Repr

/-- The pagination loop shared by `getAllPods` (main.go lines 184-197) and
`getAllPodMetrics` (lines 214-227): call the listing API with the current
continuation token; on error log and break, returning what was accumulated
so far; otherwise append the page's items and continue until the token is
empty. The Go loop has no bound; `fuel` only needs to exceed the number of
pages the source serves. -/
def listPaged {α : Type} (source : String → Except String (Page α)) :
    Nat → String → List α
  | 0, _ => []
  | fuel + 1, tok =>
    match source tok with
    | .error _ => []
    | .ok pg =>
      if pg.continueToken.length = 0 then pg.items
      else pg.items ++ listPaged source fuel pg.continueToken

/-- Model of `getAllPods` of main.go lines 172-200, with the Kube list call
abstracted as `source` (page size is fixed inside the call and does not
affect the loop structure). -/
def getAllPods (source : String → Except String (Page Pod)) (fuel : Nat) : List Pod :=
  listPaged source fuel ""

/-- Model of `getAllPodMetrics` of main.go lines 203-230, with the metrics list call
abstracted as `source`. -/
def getAllPodMetrics (source : String → Except String (Page PodMetric)) (fuel : Nat) :
    List PodMetric :=
  listPaged source fuel ""

/-- Continuation token encoding a page index: `i` repetitions of a marker
character, so that the token for page 0 is the empty string the loop starts
from, and every later token is non-empty. -/
def pageToken (i : Nat) : String := String.mk (List.replicate i 'x')

/-- A simulated paginated source serving the given list of pages in order,
linking them by `pageToken` continuation tokens and ending with an empty
token on the last page. -/
def pagesSource {α : Type} (pages : List (List α)) (tok : String) :
    Except String (Page α) :=
  let i := tok.length
  if h : i < pages.length then
    .ok ⟨pages.get ⟨i, h⟩, if i + 1 < pages.length then pageToken (i + 1) else ""⟩
  else
    .ok ⟨[], ""⟩

/-- The error kinds of Go's `strconv.Atoi`: success, a syntax error (the
returned value is then 0) or a range error (the returned value is then the
nearest int64 bound). -/
inductive AtoiErr
  | ok
  | errSyntax
  | errRange
deriving DecidableEq, Repr

/-- Decimal digit accumulation of `strconv.Atoi`: `none` on the first
non-digit character. -/
def readDigits : List Char → Nat → Option Nat
  | [], acc => some acc
  | c :: cs, acc =>
    if c.isDigit then readDigits cs (acc * 10 + (c.toNat - 48)) else none

/-- Range handling of `strconv.Atoi`: out-of-range values clamp to the
nearest int64 bound with a range error. -/
def atoiClamp (v : ℤ) : ℤ × AtoiErr :=
  if v < int64Min then (int64Min, AtoiErr.errRange)
  else if int64Max < v then (int64Max, AtoiErr.errRange)
  else (v, AtoiErr.ok)

/-- The digits-and-range part of `strconv.Atoi` after the optional sign has
been consumed. -/
def atoiCore (neg : Bool) (cs : List Char) : ℤ × AtoiErr :=
  if cs.isEmpty then (0, AtoiErr.errSyntax)
  else
    match readDigits cs 0 with
    | none => (0, AtoiErr.errSyntax)
    | some n => atoiClamp (if neg then - (n : ℤ) else (n : ℤ))

/-- Go's `strconv.Atoi`: optional sign, then decimal digits; returns the
value together with the error kind. On a syntax error the value is 0. -/
def goAtoi (s : String) : ℤ × AtoiErr :=
  match s.data with
  | [] => (0, AtoiErr.errSyntax)
  | c :: cs =>
    if c = '+' then atoiCore false cs
    else if c = '-' then atoiCore true cs
    else atoiCore false (c :: cs)

/-- The sleep-interval computation of main.go lines 32-35: start from the
default 10; if the INTERVAL environment value is non-empty, overwrite it
with the first return value of `strconv.Atoi`, discarding the error. An
unset variable reads as "" through `os.Getenv`. -/
def driverSleep (interval : String) : ℤ :=
  let d : ℤ := 10
  if interval ≠ "" then (goAtoi interval).1 else d

theorem processSample_notFound (pods : List Pod) (m : PodMetric) (c0 : MetricContainer)
    (rest : List MetricContainer) (hc : m.containers = c0 :: rest)
    (hp : getPod m.name pods = none) :
    ∃ r, processSample pods m = .ok r ∧
      r.cpu.current = goTrunc (c0.cpuUsage * 1000) ∧
      r.cpu.configured = 0 ∧ r.cpu.usage = 0 ∧
      r.memory.current = goTrunc (c0.memUsage / 1000 / 1000) ∧
      r.memory.configured = 0 ∧ r.memory.usage = 0 := by
  unfold processSample
  simp only [hc, hp]
  exact ⟨_, rfl, rfl, rfl, rfl, rfl, rfl, rfl⟩

theorem processSample_found (pods : List Pod) (m : PodMetric) (c0 : MetricContainer)
    (rest : List MetricContainer) (pod : Pod) (cpuL memL : ℚ)
    (hc : m.containers = c0 :: rest)
    (hp : getPod m.name pods = some pod)
    (hl : getCpuAndMemoryLimit (classifyType m.labels) pod = some (cpuL, memL)) :
    ∃ r, processSample pods m = .ok r ∧
      r.cpu.current = goTrunc (c0.cpuUsage * 1000) ∧
      r.cpu.configured = goTrunc (cpuL * 1000) ∧
      r.cpu.usage = usagePct (c0.cpuUsage * 1000) (cpuL * 1000) ∧
      r.memory.current = goTrunc (c0.memUsage / 1000 / 1000) ∧
      r.memory.configured = goTrunc (memL / 1000 / 1000) ∧
      r.memory.usage = usagePct (c0.memUsage / 1000 / 1000) (memL / 1000 / 1000) := by
  unfold processSample
  simp only [hc, hp, hl]
  exact ⟨_, rfl, rfl, rfl, rfl, rfl, rfl, rfl⟩

/-- C5: a usage sample whose name matches no fetched pod still yields an
emitted record; its configured and usage fields stay at zero for both
dimensions, and only the current values are populated (from the sample's
first container). -/
theorem soft_miss_record (pods : List Pod) (m : PodMetric) (c0 : MetricContainer)
    (rest : List MetricContainer) (hc : m.containers = c0 :: rest)
    (hp : getPod m.name pods = none) :
    ∃ r, processSample pods m = .ok r ∧
      r.cpu.configured = 0 ∧ r.cpu.usage = 0 ∧
      r.memory.configured = 0 ∧ r.memory.usage = 0 ∧
      r.cpu.current = goTrunc (c0.cpuUsage * 1000) ∧
      r.memory.current = goTrunc (c0.memUsage / 1000 / 1000) := by
  obtain ⟨r, hr, h1, h2, h3, h4, h5, h6⟩ := processSample_notFound pods m c0 rest hc hp
  exact ⟨r, hr, h2, h3, h5, h6, h1, h4⟩

/-- A usage sample naming an instance absent from the (empty) inventory. -/
def missMetric : PodMetric := ⟨"miss-1", [], [⟨1 / 2, 2000000⟩]⟩

/-- Witness for C5 at a concrete sample with no matching pod. -/
theorem soft_miss_record_witness :
    ∃ r, processSample [] missMetric = .ok r ∧
      r.cpu.configured = 0 ∧ r.cpu.usage = 0 ∧
      r.memory.configured = 0 ∧ r.memory.usage = 0 ∧
      r.cpu.current = goTrunc ((1 / 2 : ℚ) * 1000) ∧
      r.memory.current = goTrunc ((2000000 : ℚ) / 1000 / 1000) :=
  soft_miss_record [] missMetric ⟨1 / 2, 2000000⟩ [] rfl rfl

/-- C10: the per-sample computation reads the first container of the usage
sample with an unguarded index; it takes the index-out-of-range panic path
exactly when the sample's container list is empty, so it is free of that
panic only under the precondition that every sample has at least one
container. -/
theorem first_container_unguarded (pods : List Pod) (m : PodMetric) :
    processSample pods m = .error Fault.indexOutOfRange ↔ m.containers = [] := by
  constructor
  · intro h
    cases hc : m.containers with
    | nil => rfl
    | cons c0 rest =>
      exfalso
      unfold processSample at h
      simp only [hc] at h
      cases hp : getPod m.name pods with
      | none => simp only [hp] at h; exact Except.noConfusion h
      | some pod =>
        simp only [hp] at h
        cases hl : getCpuAndMemoryLimit (classifyType m.labels) pod with
        | none =>
          simp only [hl] at h
          exact Fault.noConfusion (Except.error.inj h)
        | some q =>
          simp only [hl] at h
          exact Except.noConfusion h
  · intro h
    unfold processSample
    simp only [h]

/-- Witness for C10 at a concrete sample with an empty container list. -/
theorem first_container_unguarded_witness :
    processSample [] ⟨"w-1", [], []⟩ = .error Fault.indexOutOfRange :=
  (first_container_unguarded [] ⟨"w-1", [], []⟩).mpr rfl

/-- A pod whose sample carries no ownership label (componentType stays
"unknown"), so the limit resolver returns the nil pair. -/
def unknownPod : Pod := ⟨"inst-1", [⟨"run", some 1, some 1000000000⟩]⟩

/-- The usage sample matching `unknownPod` by name, with no labels. -/
def unknownPodMetric : PodMetric := ⟨"inst-1", [], [⟨1 / 10, 100000000⟩]⟩

/-- A job pod whose container declares no limits, so the resolved limits
are present but zero. -/
def zeroLimitPod : Pod := ⟨"inst-2", [⟨"c0", none, none⟩]⟩

/-- The usage sample matching `zeroLimitPod` by name, labelled as a job
run. -/
def zeroLimitMetric : PodMetric := ⟨"inst-2", [(jobRunLabelKey, "jr")], [⟨1 / 10, 100000000⟩]⟩

/-- C2: evaluating the code at the two limit-degenerate inputs. When the
resolver returns the nil pair (type "unknown" with a matching pod), the
cycle panics on `cpu.ToDec()` instead of emitting a record; when the
resolved limit is present but zero (a job container with no declared
limits), the emitted usage field holds the division-by-zero-derived value
`-2^63`, not 0. Both outcomes contradict the claim. -/
theorem limit_absence_panics :
    processSample [unknownPod] unknownPodMetric = .error Fault.nilDeref ∧
    ∃ r, processSample [zeroLimitPod] zeroLimitMetric = .ok r ∧
      r.cpu.usage = int64IndefGo ∧ r.cpu.usage ≠ 0 := by
  constructor
  · rfl
  · obtain ⟨r, hr, _, _, h3, _, _, _⟩ :=
      processSample_found [zeroLimitPod] zeroLimitMetric ⟨1 / 10, 100000000⟩ []
        zeroLimitPod 0 0 rfl rfl rfl
    refine ⟨r, hr, ?_, ?_⟩
    · rw [h3, usagePct, if_pos (by norm_num)]
    · rw [h3, usagePct, if_pos (by norm_num)]
      unfold int64IndefGo int64Min
      norm_num

/-- The pod of the unit-conversion scenario: one container with a limit of
0.5 cores CPU and 500,000,000 bytes memory. -/
def convPod : Pod := ⟨"conv-1", [⟨"c0", some (1 / 2), some 500000000⟩]⟩

/-- The usage sample of the unit-conversion scenario: 0.25 cores CPU and
104,857,600 bytes memory, labelled as a job run so the first container's
limits apply. -/
def convMetric : PodMetric := ⟨"conv-1", [(jobRunLabelKey, "jr1")], [⟨1 / 4, 104857600⟩]⟩

/-- C9: the unit conversions at the spec's example values: 0.25 cores used
against a 0.5-core limit gives CPU current 250 milli-cores, configured 500,
usage 50 percent; 104,857,600 bytes used against a 500,000,000-byte limit
gives memory current 104 MB (truncated), configured 500 MB, usage
20 percent. -/
theorem unit_conversion_examples :
    ∃ r, processSample [convPod] convMetric = .ok r ∧
      r.cpu.current = 250 ∧ r.cpu.configured = 500 ∧ r.cpu.usage = 50 ∧
      r.memory.current = 104 ∧ r.memory.configured = 500 ∧ r.memory.usage = 20 := by
  obtain ⟨r, hr, h1, h2, h3, h4, h5, h6⟩ :=
    processSample_found [convPod] convMetric ⟨1 / 4, 104857600⟩ []
      convPod (1 / 2) 500000000 rfl rfl rfl
  refine ⟨r, hr, ?_, ?_, ?_, ?_, ?_, ?_⟩
  · rw [h1, goTrunc]; norm_num
  · rw [h2, goTrunc]; norm_num
  · rw [h3, usagePct, if_neg (by norm_num), goTrunc]; norm_num
  · rw [h4, goTrunc]; norm_num
  · rw [h5, goTrunc]; norm_num
  · rw [h6, usagePct, if_neg (by norm_num), goTrunc]; norm_num

/-- Modelled from the spec: `round(current / configured * 100)` — rounding
to the nearest integer, halves up. Stated only to be compared against the
truncation the code performs. -/
def specRound (q : ℚ) : ℤ := ⌊q + 1 / 2⌋

/-- The pod of the rounding counterexample: first-container CPU limit of
0.003 cores (3 milli-cores), memory limit 1 MB. -/
def roundPod : Pod := ⟨"round-1", [⟨"c0", some (3 / 1000), some 1000000⟩]⟩

/-- The usage sample of the rounding counterexample: 0.002 cores used, zero
memory, labelled as a job run. -/
def roundMetric : PodMetric := ⟨"round-1", [(jobRunLabelKey, "jr2")], [⟨2 / 1000, 0⟩]⟩

/-- C3 counterexample: at CPU current 2 milli-cores against configured
3 milli-cores the stored usage is 66 — the truncation of 200/3 — while
`round(current / configured * 100)` is 67, so the stored percentage is not
the rounded ratio. -/
theorem usage_rounding_counterexample :
    ∃ r, processSample [roundPod] roundMetric = .ok r ∧
      r.cpu.current = 2 ∧ r.cpu.configured = 3 ∧ r.cpu.usage = 66 ∧
      specRound ((2 : ℚ) / 3 * 100) = 67 := by
  obtain ⟨r, hr, h1, h2, h3, _, _, _⟩ :=
    processSample_found [roundPod] roundMetric ⟨2 / 1000, 0⟩ []
      roundPod (3 / 1000) 1000000 rfl rfl rfl
  refine ⟨r, hr, ?_, ?_, ?_, ?_⟩
  · rw [h1, goTrunc]; norm_num
  · rw [h2, goTrunc]; norm_num
  · rw [h3, usagePct, if_neg (by norm_num), goTrunc]; norm_num
  · rw [specRound]; norm_num

/-- C3 (amended): when a matching instance definition is found and yields a
present, nonzero configured limit, the stored usage percentage equals the
TRUNCATION toward zero of `current / configured * 100` (computed from the
unconverted values), for both dimensions — Go's `int64(...)` conversion
truncates rather than rounds. -/
theorem usage_is_truncation (pods : List Pod) (m : PodMetric) (c0 : MetricContainer)
    (rest : List MetricContainer) (pod : Pod) (cpuL memL : ℚ)
    (hc : m.containers = c0 :: rest)
    (hp : getPod m.name pods = some pod)
    (hl : getCpuAndMemoryLimit (classifyType m.labels) pod = some (cpuL, memL))
    (hcpu : cpuL ≠ 0) (hmem : memL ≠ 0) :
    ∃ r, processSample pods m = .ok r ∧
      r.cpu.usage = goTrunc (c0.cpuUsage * 1000 / (cpuL * 1000) * 100) ∧
      r.memory.usage = goTrunc (c0.memUsage / 1000 / 1000 / (memL / 1000 / 1000) * 100) := by
  obtain ⟨r, hr, _, _, h3, _, _, h6⟩ :=
    processSample_found pods m c0 rest pod cpuL memL hc hp hl
  refine ⟨r, hr, ?_, ?_⟩
  · rw [h3, usagePct, if_neg (mul_ne_zero hcpu (by norm_num))]
  · rw [h6, usagePct,
      if_neg (div_ne_zero (div_ne_zero hmem (by norm_num)) (by norm_num))]

/-- Witness for the amended C3 at the unit-conversion fixture. -/
theorem usage_is_truncation_witness :
    ∃ r, processSample [convPod] convMetric = .ok r ∧
      r.cpu.usage = goTrunc ((1 / 4 : ℚ) * 1000 / ((1 / 2 : ℚ) * 1000) * 100) ∧
      r.memory.usage =
        goTrunc ((104857600 : ℚ) / 1000 / 1000 / ((500000000 : ℚ) / 1000 / 1000) * 100) :=
  usage_is_truncation [convPod] convMetric ⟨1 / 4, 104857600⟩ []
    convPod (1 / 2) 500000000 rfl rfl rfl (by norm_num) (by norm_num)

theorem findUserContainer_eq_none (cs : List Container)
    (h : ∀ c ∈ cs, c.name ≠ "user-container") : findUserContainer cs = none := by
  induction cs with
  | nil => rfl
  | cons c rest ih =>
    unfold findUserContainer
    rw [if_neg (h c (List.mem_cons_self c rest))]
    exact ih fun c hc => h c (List.mem_cons_of_mem _ hc)

theorem findUserContainer_some (cs : List Container) (c : Container)
    (h : findUserContainer cs = some c) :
    c ∈ cs ∧ c.name = "user-container" := by
  induction cs with
  | nil => exact Option.noConfusion h
  | cons c0 rest ih =>
    unfold findUserContainer at h
    by_cases hn : c0.name = "user-container"
    · rw [if_pos hn] at h
      obtain rfl := Option.some.inj h
      exact ⟨List.mem_cons_self c0 rest, hn⟩
    · rw [if_neg hn] at h
      obtain ⟨hm, he⟩ := ih h
      exact ⟨List.mem_cons_of_mem _ hm, he⟩

/-- C6: the limit resolver takes limits for type "app" exclusively from a
container named exactly "user-container" (if no container has that name the
result is the nil pair, whatever the other containers declare); for "job"
and "build" it takes the first container's declared limits; for an empty
container list or any other type (e.g. "unknown") the result is the nil
pair. -/
theorem limit_resolver_spec (pod : Pod) :
    ((∀ c ∈ pod.containers, c.name ≠ "user-container") →
        getCpuAndMemoryLimit "app" pod = none) ∧
    (∀ q, getCpuAndMemoryLimit "app" pod = some q →
        ∃ c, c ∈ pod.containers ∧ c.name = "user-container" ∧ q = containerLimits c) ∧
    (∀ c0 rest, pod.containers = c0 :: rest →
        getCpuAndMemoryLimit "job" pod = some (containerLimits c0) ∧
        getCpuAndMemoryLimit "build" pod = some (containerLimits c0)) ∧
    (pod.containers = [] → ∀ t, getCpuAndMemoryLimit t pod = none) ∧
    (∀ t, t ≠ "app" → t ≠ "job" → t ≠ "build" → getCpuAndMemoryLimit t pod = none) := by
  refine ⟨?_, ?_, ?_, ?_, ?_⟩
  · intro h
    unfold getCpuAndMemoryLimit
    cases hc : pod.containers with
    | nil => simp
    | cons c0 rest =>
      simp only [reduceIte, String.reduceEq]
      rw [← hc, findUserContainer_eq_none pod.containers h]
      rfl
  · intro q hq
    unfold getCpuAndMemoryLimit at hq
    cases hc : pod.containers with
    | nil => rw [hc] at hq; simp at hq
    | cons c0 rest =>
      rw [hc] at hq
      simp only [reduceIte, String.reduceEq] at hq
      rw [← hc] at hq
      cases hf : findUserContainer pod.containers with
      | none => rw [hf] at hq; exact Option.noConfusion hq
      | some c =>
        rw [hf] at hq
        obtain ⟨hm, hn⟩ := findUserContainer_some pod.containers c hf
        exact ⟨c, hc ▸ hm, hn, (Option.some.inj hq).symm⟩
  · intro c0 rest hc
    unfold getCpuAndMemoryLimit
    rw [hc]
    simp
  · intro hc t
    unfold getCpuAndMemoryLimit
    rw [hc]
    by_cases h1 : t = "job" <;> by_cases h2 : t = "app" <;> by_cases h3 : t = "build" <;>
      simp [h1, h2, h3]
  · intro t h2 h1 h3
    unfold getCpuAndMemoryLimit
    simp [h1, h2, h3]

/-- A pod with two containers, neither named "user-container", the first
declaring limits. -/
def sidecarPod : Pod :=
  ⟨"app-1", [⟨"istio-proxy", some 1, some 1000000⟩, ⟨"queue", some 2, some 2000000⟩]⟩

/-- Witness for C6: on a pod whose containers both declare limits but none
is named "user-container", the type-"app" resolution is the nil pair, while
"job" and "build" take the first container's limits and "unknown" gets the
nil pair. -/
theorem limit_resolver_spec_witness :
    getCpuAndMemoryLimit "app" sidecarPod = none ∧
    getCpuAndMemoryLimit "job" sidecarPod =
      some (containerLimits ⟨"istio-proxy", some 1, some 1000000⟩) ∧
    getCpuAndMemoryLimit "build" sidecarPod =
      some (containerLimits ⟨"istio-proxy", some 1, some 1000000⟩) ∧
    getCpuAndMemoryLimit "unknown" sidecarPod = none := by
  obtain ⟨h1, _, h3, _, h5⟩ := limit_resolver_spec sidecarPod
  refine ⟨h1 ?_, ?_, ?_, h5 "unknown" (by decide) (by decide) (by decide)⟩
  · intro c hc
    simp only [sidecarPod, List.mem_cons, List.not_mem_nil, or_false] at hc
    rcases hc with rfl | rfl <;> decide
  · exact (h3 ⟨"istio-proxy", some 1, some 1000000⟩
      [⟨"queue", some 2, some 2000000⟩] rfl).1
  · exact (h3 ⟨"istio-proxy", some 1, some 1000000⟩
      [⟨"queue", some 2, some 2000000⟩] rfl).2

theorem pageToken_length (i : Nat) : (pageToken i).length = i := by
  simp [pageToken, String.length]

theorem pagesSource_eq_of_lt {α : Type} (pages : List (List α)) (i : Nat)
    (h : i < pages.length) :
    pagesSource pages (pageToken i) =
      .ok ⟨pages.get ⟨i, h⟩, if i + 1 < pages.length then pageToken (i + 1) else ""⟩ := by
  unfold pagesSource
  simp only [pageToken_length]
  rw [dif_pos h]

theorem pagesSource_eq_of_ge {α : Type} (pages : List (List α)) (i : Nat)
    (h : ¬ i < pages.length) :
    pagesSource pages (pageToken i) = .ok ⟨[], ""⟩ := by
  unfold pagesSource
  simp only [pageToken_length]
  rw [dif_neg h]

theorem listPaged_pagesSource {α : Type} (pages : List (List α)) :
    ∀ (fuel i : Nat), pages.length - i ≤ fuel →
      listPaged (pagesSource pages) fuel (pageToken i) = (pages.drop i).flatten := by
  intro fuel
  induction fuel with
  | zero =>
    intro i hi
    rw [List.drop_eq_nil_of_le (by omega)]
    rfl
  | succ fuel ih =>
    intro i hi
    by_cases h : i < pages.length
    · simp only [listPaged, pagesSource_eq_of_lt pages i h]
      by_cases h2 : i + 1 < pages.length
      · rw [if_pos h2]
        rw [if_neg (by rw [pageToken_length]; omega)]
        rw [ih (i + 1) (by omega)]
        rw [List.drop_eq_getElem_cons h, List.flatten_cons]
        rfl
      · rw [if_neg h2]
        have hz : ("" : String).length = 0 := rfl
        rw [if_pos hz]
        rw [List.drop_eq_getElem_cons h, List.flatten_cons,
          List.drop_eq_nil_of_le (by omega), List.flatten_nil, List.append_nil]
        rfl
    · simp only [listPaged, pagesSource_eq_of_ge pages i h]
      have hz : ("" : String).length = 0 := rfl
      rw [if_pos hz]
      rw [List.drop_eq_nil_of_le (by omega)]
      rfl

/-- C7: against a simulated source serving a given list of pages linked by
continuation tokens (empty token on the last page), both the pod fetcher
and the metrics sampler page through until the token is empty and return
the concatenation of all pages' items in page order, given any fuel bound
of at least the number of pages. -/
theorem pagination_concatenates (podPages : List (List Pod))
    (metricPages : List (List PodMetric)) (f1 f2 : Nat)
    (h1 : podPages.length ≤ f1) (h2 : metricPages.length ≤ f2) :
    getAllPods (pagesSource podPages) f1 = podPages.flatten ∧
    getAllPodMetrics (pagesSource metricPages) f2 = metricPages.flatten := by
  constructor
  · have h := listPaged_pagesSource podPages f1 0 (by omega)
    rw [List.drop_zero] at h
    exact h
  · have h := listPaged_pagesSource metricPages f2 0 (by omega)
    rw [List.drop_zero] at h
    exact h

/-- Three one-pod pages for the pagination witness. -/
def podPagesW : List (List Pod) := [[⟨"pa", []⟩], [⟨"pb", []⟩], [⟨"pc", []⟩]]

/-- Three one-sample pages for the pagination witness. -/
def metricPagesW : List (List PodMetric) := [[⟨"ma", [], []⟩], [⟨"mb", [], []⟩], [⟨"mc", [], []⟩]]

/-- Witness for C7: a 3-page source (tokens on pages 1 and 2, empty on
page 3) yields page 1's items, then page 2's, then page 3's. -/
theorem pagination_concatenates_witness :
    getAllPods (pagesSource podPagesW) 3 = [⟨"pa", []⟩, ⟨"pb", []⟩, ⟨"pc", []⟩] ∧
    getAllPodMetrics (pagesSource metricPagesW) 3 =
      [⟨"ma", [], []⟩, ⟨"mb", [], []⟩, ⟨"mc", [], []⟩] :=
  pagination_concatenates podPagesW metricPagesW 3 3 (by decide) (by decide)

theorem processSample_succeeds (pods : List Pod) (m : PodMetric)
    (hc : m.containers ≠ [])
    (hl : ∀ pod, getPod m.name pods = some pod →
        getCpuAndMemoryLimit (classifyType m.labels) pod ≠ none) :
    ∃ r, processSample pods m = .ok r := by
  cases hcs : m.containers with
  | nil => exact absurd hcs hc
  | cons c0 rest =>
    cases hp : getPod m.name pods with
    | none =>
      obtain ⟨r, hr, _⟩ := processSample_notFound pods m c0 rest hcs hp
      exact ⟨r, hr⟩
    | some pod =>
      cases hlim : getCpuAndMemoryLimit (classifyType m.labels) pod with
      | none => exact absurd hlim (hl pod hp)
      | some q =>
        obtain ⟨cpuL, memL⟩ := q
        obtain ⟨r, hr, _⟩ := processSample_found pods m c0 rest pod cpuL memL hcs hp hlim
        exact ⟨r, hr⟩

theorem collectRecords_complete (pods : List Pod) (metrics : List PodMetric)
    (h : ∀ m ∈ metrics, m.containers ≠ [] ∧
        ∀ pod, getPod m.name pods = some pod →
          getCpuAndMemoryLimit (classifyType m.labels) pod ≠ none) :
    (collectRecords pods metrics).2 = none ∧
    (collectRecords pods metrics).1.length = metrics.length := by
  induction metrics with
  | nil => exact ⟨rfl, rfl⟩
  | cons m rest ih =>
    obtain ⟨hc, hl⟩ := h m (List.mem_cons_self m rest)
    obtain ⟨r, hr⟩ := processSample_succeeds pods m hc hl
    obtain ⟨ih1, ih2⟩ := ih fun m hm => h m (List.mem_cons_of_mem _ hm)
    unfold collectRecords
    rw [hr]
    cases hrec : collectRecords pods rest with
    | mk rs fl =>
      rw [hrec] at ih1 ih2
      simp only at ih1 ih2
      simp [ih1, ih2]

/-- C8: when the first page of the pod listing succeeds with a non-empty
continuation token and the second page fails, the fetcher returns exactly
the first page's items (the partial collection, no retry, no abort); the
cycle over the usage samples still completes without a fault and emits one
record per sample, for any sample list whose per-sample processing stays on
the non-panicking paths. -/
theorem page_error_degrades (source : String → Except String (Page Pod))
    (p1 : List Pod) (t1 err : String) (fuel : Nat) (metrics : List PodMetric)
    (h0 : source "" = .ok ⟨p1, t1⟩) (ht : t1.length ≠ 0)
    (h1 : source t1 = .error err) (hf : 2 ≤ fuel)
    (hm : ∀ m ∈ metrics, m.containers ≠ [] ∧
        ∀ pod, getPod m.name p1 = some pod →
          getCpuAndMemoryLimit (classifyType m.labels) pod ≠ none) :
    getAllPods source fuel = p1 ∧
    (collectRecords p1 metrics).2 = none ∧
    (collectRecords p1 metrics).1.length = metrics.length := by
  obtain ⟨f, rfl⟩ : ∃ f, fuel = f + 2 := ⟨fuel - 2, by omega⟩
  refine ⟨?_, collectRecords_complete p1 metrics hm⟩
  unfold getAllPods
  simp only [listPaged, h0, h1]
  rw [if_neg ht]
  simp

/-- A pod source whose first page holds one pod with a continuation token
and whose second page fails. -/
def failSource : String → Except String (Page Pod) :=
  fun tok => if tok = "" then .ok ⟨[unknownPod], "t1"⟩ else .error "boom"

/-- Witness for C8: against `failSource` the fetcher returns page 1's single
pod, and the cycle over one non-matching usage sample completes with one
emitted record and no fault. -/
theorem page_error_degrades_witness :
    getAllPods failSource 2 = [unknownPod] ∧
    (collectRecords [unknownPod] [missMetric]).2 = none ∧
    (collectRecords [unknownPod] [missMetric]).1.length = [missMetric].length :=
  page_error_degrades failSource [unknownPod] "t1" "boom" 2 [missMetric]
    rfl (by decide) rfl (by omega)
    (fun m hm => by
      simp only [List.mem_singleton] at hm
      subst hm
      exact ⟨by simp [missMetric], fun pod hpod => Option.noConfusion hpod⟩)

theorem atoiClamp_ne_errSyntax (v : ℤ) : (atoiClamp v).2 ≠ AtoiErr.errSyntax := by
  unfold atoiClamp
  by_cases h1 : v < int64Min
  · rw [if_pos h1]; decide
  · rw [if_neg h1]
    by_cases h2 : int64Max < v
    · rw [if_pos h2]; decide
    · rw [if_neg h2]
      exact fun hcon => AtoiErr.noConfusion hcon

theorem atoiCore_errSyntax_val (neg : Bool) (cs : List Char)
    (h : (atoiCore neg cs).2 = AtoiErr.errSyntax) : (atoiCore neg cs).1 = 0 := by
  unfold atoiCore at h ⊢
  by_cases he : cs.isEmpty
  · rw [if_pos he]
  · rw [if_neg he] at h ⊢
    cases hd : readDigits cs 0 with
    | none => simp only [hd]
    | some n =>
      simp only [hd] at h
      exact absurd h (atoiClamp_ne_errSyntax _)

theorem goAtoi_errSyntax_val (s : String) (h : (goAtoi s).2 = AtoiErr.errSyntax) :
    (goAtoi s).1 = 0 := by
  unfold goAtoi at h ⊢
  cases hd : s.data with
  | nil => rfl
  | cons c cs =>
    simp only [hd] at h ⊢
    by_cases h1 : c = '+'
    · rw [if_pos h1] at h ⊢; exact atoiCore_errSyntax_val false cs h
    · rw [if_neg h1] at h ⊢
      by_cases h2 : c = '-'
      · rw [if_pos h2] at h ⊢; exact atoiCore_errSyntax_val true cs h
      · rw [if_neg h2] at h ⊢; exact atoiCore_errSyntax_val false (c :: cs) h

/-- C4 counterexample: with INTERVAL set to the unparsable string
"not-a-number" the driver's sleep duration becomes 0 — `strconv.Atoi`'s
zero error value overwrites the 10-second default — not the claimed
fallback of 10. -/
theorem interval_unparsable_counterexample :
    driverSleep "not-a-number" = 0 ∧ driverSleep "not-a-number" ≠ 10 := by
  constructor <;> decide

/-- C4 (amended): with INTERVAL unset (read as the empty string through
`os.Getenv`) the driver sleeps the default 10 seconds; with INTERVAL set to
a non-empty string that fails to parse, the driver does not fail but uses
0 seconds — Atoi's zero error value overwrites the default — rather than
falling back to 10. -/
theorem interval_default_and_unparsable (s : String) (hne : s ≠ "")
    (hsyn : (goAtoi s).2 = AtoiErr.errSyntax) :
    driverSleep "" = 10 ∧ driverSleep s = 0 := by
  refine ⟨rfl, ?_⟩
  unfold driverSleep
  rw [if_pos hne]
  exact goAtoi_errSyntax_val s hsyn

/-- Witness for the amended C4 at a concrete unparsable string. -/
theorem interval_default_and_unparsable_witness :
    driverSleep "" = 10 ∧ driverSleep "abc" = 0 :=
  interval_default_and_unparsable "abc" (by decide) (by decide)

end CeMetrics
